import Mathlib

/-!
Verification of the order-lifecycle core of an agricultural e-commerce
service: inventory ledger, order creation/cancellation/deletion, payment
initiation and refund, and shipment timestamping.

The definitions below are a shallow embedding of the Python service layer
(`api/orders/service.py`, `api/products/service.py`,
`api/payments/service.py`, `api/shipments/service.py`).  Monetary and
quantity columns are SQL `Numeric` (Python `Decimal`), embedded as `ℚ`;
database rows are association lists keyed by product id; a transaction is
explicit state passing with rollback returning the pre-call state.
-/

deriving instance DecidableEq for Except

/-- Enum `OrderStatus` from `packages/db/enums.py`. -/
inductive OrderStatus where
  | DRAFT
  | PENDING_PAYMENT
  | PAID
  | CANCELLED
  | FULFILLED
deriving DecidableEq

/-- Enum `PaymentStatus` from `packages/db/enums.py`. -/
inductive PaymentStatus where
  | NOT_REQUIRED
  | PENDING
  | AUTHORIZED
  | CAPTURED
  | FAILED
  | REFUNDED
deriving DecidableEq

/-- Enum `ShipmentStatus` from `packages/db/enums.py`. -/
inductive ShipmentStatus where
  | PENDING
  | PACKED
  | SHIPPED
  | DELIVERED
  | CANCELLED
deriving DecidableEq

/-- A `Product` row: the fields of `packages/db/models.py` that the order
lifecycle reads (`price` and `stock_quantity` are `Numeric`). -/
structure Product where
  id : ℕ
  price : ℚ
  stock_quantity : ℚ
deriving DecidableEq

/-- The product table, keyed by `Product.id`. -/
abbrev Inventory := List Product

/-- Lookup `db.get(ProductModel, pid)`: first row with the given primary key. -/
def getProduct : Inventory → ℕ → Option Product
  | [], _ => none
  | p :: rest, pid => if p.id = pid then some p else getProduct rest pid

/-- Assignment `product.stock_quantity = q` on the row with id `pid`. -/
def setStock : Inventory → ℕ → ℚ → Inventory
  | [], _, _ => []
  | p :: rest, pid, q =>
      (if p.id = pid then { p with stock_quantity := q } else p) :: setStock rest pid q

/-- An item of an `OrderCreate` request (`api/orders/models.py`,
`OrderItemCreate`): `quantity` is validated `gt=0` and `unit_price`,
`line_discount` are validated `ge=0` at the API boundary. -/
structure OrderItemCreate where
  product_id : ℕ
  quantity : ℚ
  unit_price : ℚ
  line_discount : ℚ
deriving DecidableEq

/-- A stored `OrderItem` row (`packages/db/models.py`). -/
structure OrderItem where
  product_id : ℕ
  quantity : ℚ
  unit_price : ℚ
  line_subtotal : ℚ
  line_discount : ℚ
  line_total : ℚ
deriving DecidableEq

/-- An `Order` row: the columns the order/payment lifecycle reads and
writes.  New rows default to `status=DRAFT`, `payment_status=PENDING`
(`packages/db/models.py`). -/
structure Order where
  status : OrderStatus
  payment_status : PaymentStatus
  payment_provider : Option String
  payment_reference : Option String
  order_items : List OrderItem
  subtotal_amount : ℚ
  shipping_amount : ℚ
  discount_amount : ℚ
  total_amount : ℚ
deriving DecidableEq

/-- An `OrderCreate` request body (`api/orders/models.py`):
`shipping_amount` and `discount_amount` default to `0`. -/
structure OrderCreate where
  items : List OrderItemCreate
  shipping_amount : ℚ
  discount_amount : ℚ
deriving DecidableEq

/-- The two `ValueError`s raised inside `OrderService.create_order`:
`"Product ... not found"` and `"Insufficient stock for product ..."`. -/
inductive OrderError where
  | productNotFound (pid : ℕ)
  | insufficientStock (pid : ℕ)
deriving DecidableEq

/-- The item loop of `OrderService.create_order` (service.py lines
101-128): per item, look the product up, fail if absent, fail if
`stock_quantity < quantity`, build the `OrderItem` row with
`line_subtotal = quantity * unit_price` and
`line_total = line_subtotal - line_discount`, decrement the product's
stock, and accumulate the subtotal of line totals. -/
def processItems : Inventory → List OrderItemCreate →
    Except OrderError (Inventory × List OrderItem × ℚ)
  | inv, [] => Except.ok (inv, [], 0)
  | inv, item :: rest =>
    match getProduct inv item.product_id with
    | none => Except.error (OrderError.productNotFound item.product_id)
    | some product =>
      if product.stock_quantity < item.quantity then
        Except.error (OrderError.insufficientStock product.id)
      else
        match processItems
            (setStock inv item.product_id (product.stock_quantity - item.quantity)) rest with
        | Except.error e => Except.error e
        | Except.ok (inv2, ois, sub) =>
            Except.ok (inv2,
              { product_id := item.product_id
                quantity := item.quantity
                unit_price := item.unit_price
                line_subtotal := item.quantity * item.unit_price
                line_discount := item.line_discount
                line_total := item.quantity * item.unit_price - item.line_discount } :: ois,
              (item.quantity * item.unit_price - item.line_discount) + sub)

/-- The `OrderItem` row `create_order` builds from a request item. -/
def mkOrderItem (it : OrderItemCreate) : OrderItem :=
  { product_id := it.product_id
    quantity := it.quantity
    unit_price := it.unit_price
    line_subtotal := it.quantity * it.unit_price
    line_discount := it.line_discount
    line_total := it.quantity * it.unit_price - it.line_discount }

/-- Embedding of `OrderService.create_order`: run the item loop, then set
`subtotal_amount` and
`total_amount = subtotal + shipping_amount - discount_amount` and commit;
any failure raises after `db.rollback()`. -/
def create_order (inv : Inventory) (d : OrderCreate) :
    Except OrderError (Inventory × Order) :=
  match processItems inv d.items with
  | Except.error e => Except.error e
  | Except.ok (inv2, ois, sub) =>
      Except.ok (inv2,
        { status := OrderStatus.DRAFT
          payment_status := PaymentStatus.PENDING
          payment_provider := none
          payment_reference := none
          order_items := ois
          subtotal_amount := sub
          shipping_amount := d.shipping_amount
          discount_amount := d.discount_amount
          total_amount := sub + d.shipping_amount - d.discount_amount })

/-- The committed product table after a `create_order` call: the updated
table on commit, the unchanged table after rollback. -/
def createOrderInventory (inv : Inventory) (d : OrderCreate) : Inventory :=
  match create_order inv d with
  | Except.error _ => inv
  | Except.ok (inv2, _) => inv2

/-- Total quantity a request asks of product `pid`. -/
def requestedQty : List OrderItemCreate → ℕ → ℚ
  | [], _ => 0
  | it :: rest, pid =>
      (if it.product_id = pid then it.quantity else 0) + requestedQty rest pid

/-- Total quantity the stored order items hold of product `pid`. -/
def restoredQty : List OrderItem → ℕ → ℚ
  | [], _ => 0
  | oi :: rest, pid =>
      (if oi.product_id = pid then oi.quantity else 0) + restoredQty rest pid

/-- The stock-restoration loop shared by `cancel_order` and
`delete_order`: for every order item, if the product still exists, add the
item's quantity back to its stock. -/
def restoreItems (inv : Inventory) : List OrderItem → Inventory
  | [] => inv
  | oi :: rest =>
    match getProduct inv oi.product_id with
    | none => restoreItems inv rest
    | some p => restoreItems (setStock inv oi.product_id (p.stock_quantity + oi.quantity)) rest

/-- The `ValueError` raised by `cancel_order` / `delete_order` on a status
that forbids the operation. -/
inductive OrderOpError where
  | invalidState
deriving DecidableEq

/-- Embedding of `OrderService.cancel_order` (service.py lines 226-251): reject
CANCELLED and FULFILLED orders, otherwise restore every item's stock and
set `status = CANCELLED`. -/
def cancel_order (inv : Inventory) (order : Order) :
    Except OrderOpError (Inventory × Order) :=
  if order.status = OrderStatus.CANCELLED ∨ order.status = OrderStatus.FULFILLED then
    Except.error OrderOpError.invalidState
  else
    Except.ok (restoreItems inv order.order_items,
      { order with status := OrderStatus.CANCELLED })

/-- The committed product table after a `cancel_order` call. -/
def cancelOrderInventory (inv : Inventory) (order : Order) : Inventory :=
  match cancel_order inv order with
  | Except.error _ => inv
  | Except.ok (inv2, _) => inv2

/-- Embedding of `OrderService.delete_order` (service.py lines 254-272): permitted only
for DRAFT orders; restores every item's stock first, then deletes the
order row. -/
def delete_order (inv : Inventory) (order : Order) :
    Except OrderOpError Inventory :=
  if order.status = OrderStatus.DRAFT then
    Except.ok (restoreItems inv order.order_items)
  else
    Except.error OrderOpError.invalidState

/-- Result of `ProductService.update_stock`: `None` for a missing product,
`ValueError("Insufficient stock")` when the new quantity would be
negative, otherwise the updated table and row. -/
inductive UpdateStockResult where
  | notFound
  | insufficientStock
  | updated (inv : Inventory) (p : Product)
deriving DecidableEq

/-- Embedding of `ProductService.update_stock` (products/service.py lines 214-237):
`new_quantity = stock_quantity + quantity_change`, rejected if negative. -/
def update_stock (inv : Inventory) (pid : ℕ) (quantity_change : ℚ) : UpdateStockResult :=
  match getProduct inv pid with
  | none => UpdateStockResult.notFound
  | some p =>
    if p.stock_quantity + quantity_change < 0 then
      UpdateStockResult.insufficientStock
    else
      UpdateStockResult.updated (setStock inv pid (p.stock_quantity + quantity_change))
        { p with stock_quantity := p.stock_quantity + quantity_change }

theorem getProduct_setStock (inv : Inventory) (pid pid' : ℕ) (q : ℚ) :
    getProduct (setStock inv pid q) pid' =
      if pid' = pid then
        (getProduct inv pid').map (fun p => { p with stock_quantity := q })
      else getProduct inv pid' := by
  induction inv with
  | nil => simp [getProduct, setStock]
  | cons p rest ih =>
    by_cases h1 : p.id = pid
    · by_cases h3 : p.id = pid'
      · have hp : pid' = pid := by rw [← h3, h1]
        simp [setStock, getProduct, h1, h3, hp]
      · have hp : ¬ pid' = pid := fun hc => h3 (h1.trans hc.symm)
        have hq : ¬ pid = pid' := fun hc => hp hc.symm
        simp [setStock, getProduct, h1, h3, hp, hq, ih]
    · by_cases h3 : p.id = pid'
      · have hp : ¬ pid' = pid := fun hc => h1 (h3.trans hc)
        simp [setStock, getProduct, h1, h3, hp]
      · simp [setStock, getProduct, h1, h3, ih]

theorem getProduct_mem {inv : Inventory} {pid : ℕ} {p : Product}
    (h : getProduct inv pid = some p) : p ∈ inv := by
  induction inv with
  | nil => simp [getProduct] at h
  | cons q rest ih =>
    by_cases hq : q.id = pid
    · rw [getProduct, if_pos hq] at h
      injection h with h
      subst h
      exact List.mem_cons_self _ _
    · rw [getProduct, if_neg hq] at h
      exact List.mem_cons_of_mem _ (ih h)

/-- Decrement a product's stock by `t`. -/
def subStock (t : ℚ) (p : Product) : Product :=
  { p with stock_quantity := p.stock_quantity - t }

/-- Increment a product's stock by `t`. -/
def addStock (t : ℚ) (p : Product) : Product :=
  { p with stock_quantity := p.stock_quantity + t }

theorem subStock_zero (p : Product) : subStock 0 p = p := by
  simp [subStock]

theorem addStock_zero (p : Product) : addStock 0 p = p := by
  simp [addStock]

theorem subStock_subStock (s t : ℚ) (p : Product) :
    subStock t (subStock s p) = subStock (s + t) p := by
  simp [subStock]
  ring

theorem addStock_addStock (s t : ℚ) (p : Product) :
    addStock t (addStock s p) = addStock (s + t) p := by
  simp [addStock]
  ring

/-- Specification of a successful `create_order` item loop: the stored
items are the request items with computed line amounts, the accumulated
subtotal is the sum of line totals, and every product's stock drops by
exactly the requested quantity. -/
theorem processItems_ok {items : List OrderItemCreate} :
    ∀ {inv inv2 : Inventory} {ois : List OrderItem} {sub : ℚ},
      processItems inv items = Except.ok (inv2, ois, sub) →
      ois = items.map mkOrderItem ∧
      sub = (items.map (fun it => it.quantity * it.unit_price - it.line_discount)).sum ∧
      ∀ pid, getProduct inv2 pid =
        (getProduct inv pid).map (subStock (requestedQty items pid)) := by
  induction items with
  | nil =>
    intro inv inv2 ois sub h
    rw [processItems] at h
    injection h with h
    injection h with h1 h
    injection h with h2 h3
    subst h1; subst h2; subst h3
    refine ⟨rfl, by simp, ?_⟩
    intro pid
    cases hg : getProduct inv pid <;> simp [requestedQty, subStock_zero]
  | cons item rest ih =>
    intro inv inv2 ois sub h
    rw [processItems] at h
    cases hg : getProduct inv item.product_id with
    | none => rw [hg] at h; injection h
    | some p0 =>
      rw [hg] at h
      dsimp only at h
      by_cases hlt : p0.stock_quantity < item.quantity
      · rw [if_pos hlt] at h; injection h
      · rw [if_neg hlt] at h
        cases hrec : processItems
            (setStock inv item.product_id (p0.stock_quantity - item.quantity)) rest with
        | error e => rw [hrec] at h; injection h
        | ok trip =>
          obtain ⟨inv3, ois3, sub3⟩ := trip
          rw [hrec] at h
          dsimp only at h
          injection h with h
          injection h with h1 h
          injection h with h2 h3
          subst h1; subst h2; subst h3
          obtain ⟨ho, hs, hst⟩ := ih hrec
          refine ⟨by rw [ho]; rfl, by rw [hs]; simp, ?_⟩
          intro pid
          rw [hst pid, getProduct_setStock]
          by_cases hp : pid = item.product_id
          · subst hp
            simp only [if_pos rfl, hg, requestedQty, Option.map_some']
            rw [show ({ p0 with stock_quantity := p0.stock_quantity - item.quantity } : Product)
                  = subStock item.quantity p0 from rfl]
            simp [subStock_subStock]
          · have hp2 : ¬ item.product_id = pid := fun hc => hp hc.symm
            simp [hp, hp2, requestedQty]

/-- A request item the loop must reject against the given table: its
product is absent, or its quantity exceeds the product's stock. -/
def badItem (inv : Inventory) (it : OrderItemCreate) : Prop :=
  getProduct inv it.product_id = none ∨
    ∃ p, getProduct inv it.product_id = some p ∧ p.stock_quantity < it.quantity

instance (inv : Inventory) (it : OrderItemCreate) : Decidable (badItem inv it) := by
  unfold badItem
  cases hg : getProduct inv it.product_id with
  | none => exact Decidable.isTrue (Or.inl rfl)
  | some p =>
    by_cases hlt : p.stock_quantity < it.quantity
    · exact Decidable.isTrue (Or.inr ⟨p, rfl, hlt⟩)
    · refine Decidable.isFalse ?_
      rintro (hc | ⟨p2, hp2, hlt2⟩)
      · exact Option.noConfusion hc
      · injection hp2 with hp2
        exact hlt (hp2 ▸ hlt2)

/-- If any request item is rejectable against the initial table (and all
quantities are nonnegative, as the API layer validates), the item loop
raises. -/
theorem processItems_err {items : List OrderItemCreate} :
    ∀ {inv : Inventory}, (∀ it ∈ items, 0 ≤ it.quantity) →
      (∃ it ∈ items, badItem inv it) →
      ∃ e, processItems inv items = Except.error e := by
  induction items with
  | nil =>
    intro inv _ hbad
    obtain ⟨it, hit, -⟩ := hbad
    exact absurd hit (List.not_mem_nil it)
  | cons item rest ih =>
    intro inv hq hbad
    cases hg : getProduct inv item.product_id with
    | none =>
      refine ⟨OrderError.productNotFound item.product_id, ?_⟩
      rw [processItems, hg]
    | some p0 =>
      by_cases hlt : p0.stock_quantity < item.quantity
      · refine ⟨OrderError.insufficientStock p0.id, ?_⟩
        rw [processItems, hg]
        dsimp only
        rw [if_pos hlt]
      · have hq0 : 0 ≤ item.quantity := hq item (List.mem_cons_self _ _)
        have hbad' : ∃ it ∈ rest,
            badItem (setStock inv item.product_id (p0.stock_quantity - item.quantity)) it := by
          obtain ⟨it, hit, hb⟩ := hbad
          rcases List.mem_cons.mp hit with heq | hmem
          · exfalso
            subst heq
            rcases hb with hc | ⟨p2, hp2, hlt2⟩
            · rw [hg] at hc; exact Option.noConfusion hc
            · rw [hg] at hp2; injection hp2 with hp2
              exact hlt (hp2 ▸ hlt2)
          · refine ⟨it, hmem, ?_⟩
            rw [badItem, getProduct_setStock]
            by_cases hp : it.product_id = item.product_id
            · rw [if_pos hp]
              rcases hb with hc | ⟨p2, hp2, hlt2⟩
              · rw [hp, hg] at hc; exact absurd hc (Option.noConfusion)
              · rw [hp, hg] at hp2
                injection hp2 with hp2
                subst hp2
                refine Or.inr ⟨_, by rw [hp, hg]; rfl, ?_⟩
                calc p0.stock_quantity - item.quantity ≤ p0.stock_quantity := by linarith
                  _ < it.quantity := hlt2
            · rw [if_neg hp]
              exact hb
        obtain ⟨e, he⟩ := ih (fun it hit => hq it (List.mem_cons_of_mem _ hit)) hbad'
        refine ⟨e, ?_⟩
        rw [processItems, hg]
        dsimp only
        rw [if_neg hlt, he]

/-- Effect of the restoration loop on every product: its stock grows by
the total quantity the order items hold of it (products that no longer
exist are skipped). -/
theorem getProduct_restoreItems (ois : List OrderItem) :
    ∀ (inv : Inventory) (pid : ℕ),
      getProduct (restoreItems inv ois) pid =
        (getProduct inv pid).map (addStock (restoredQty ois pid)) := by
  induction ois with
  | nil =>
    intro inv pid
    cases hg : getProduct inv pid <;> simp [restoreItems, restoredQty, addStock_zero, hg]
  | cons oi rest ih =>
    intro inv pid
    rw [restoreItems]
    cases hg : getProduct inv oi.product_id with
    | none =>
      rw [ih]
      by_cases hp : oi.product_id = pid
      · rw [← hp, hg]
        simp
      · simp [restoredQty, hp]
    | some p0 =>
      dsimp only
      rw [ih, getProduct_setStock]
      by_cases hp : pid = oi.product_id
      · subst hp
        rw [if_pos rfl, hg]
        simp only [Option.map_some', restoredQty, if_pos rfl]
        rw [show ({ p0 with stock_quantity := p0.stock_quantity + oi.quantity } : Product)
              = addStock oi.quantity p0 from rfl]
        rw [addStock_addStock]
        simp
      · have hp2 : ¬ oi.product_id = pid := fun hc => hp hc.symm
        rw [if_neg hp]
        simp [restoredQty, hp2]

/-- The order items stored by `create_order` ask exactly the requested
quantities back. -/
theorem restoredQty_map_mkOrderItem (items : List OrderItemCreate) (pid : ℕ) :
    restoredQty (items.map mkOrderItem) pid = requestedQty items pid := by
  induction items with
  | nil => rfl
  | cons it rest ih => simp [restoredQty, requestedQty, mkOrderItem, ih]

/-- The inventory invariant of the spec: every committed product row has
nonnegative stock. -/
def StockNonneg (inv : Inventory) : Prop := ∀ p ∈ inv, 0 ≤ p.stock_quantity

instance (inv : Inventory) : Decidable (StockNonneg inv) :=
  List.decidableBAll _ inv

theorem setStock_stockNonneg (pid : ℕ) (q : ℚ) (hq : 0 ≤ q) :
    ∀ inv : Inventory, StockNonneg inv → StockNonneg (setStock inv pid q) := by
  intro inv
  induction inv with
  | nil => intro _ x hx; simp [setStock] at hx
  | cons p rest ih =>
    intro hinv x hx
    have hrest : StockNonneg rest := fun y hy => hinv y (List.mem_cons_of_mem _ hy)
    rw [setStock] at hx
    rcases List.mem_cons.mp hx with h | h
    · by_cases hc : p.id = pid
      · rw [if_pos hc] at h
        subst h
        exact hq
      · rw [if_neg hc] at h
        rw [h]
        exact hinv p (List.mem_cons_self _ _)
    · exact ih hrest x h

theorem processItems_stockNonneg {items : List OrderItemCreate} :
    ∀ {inv inv2 : Inventory} {ois : List OrderItem} {sub : ℚ}, StockNonneg inv →
      processItems inv items = Except.ok (inv2, ois, sub) → StockNonneg inv2 := by
  induction items with
  | nil =>
    intro inv inv2 ois sub hinv h
    rw [processItems] at h
    injection h with h
    injection h with h1 h
    subst h1
    exact hinv
  | cons item rest ih =>
    intro inv inv2 ois sub hinv h
    rw [processItems] at h
    cases hg : getProduct inv item.product_id with
    | none => rw [hg] at h; injection h
    | some p0 =>
      rw [hg] at h
      dsimp only at h
      by_cases hlt : p0.stock_quantity < item.quantity
      · rw [if_pos hlt] at h; injection h
      · rw [if_neg hlt] at h
        cases hrec : processItems
            (setStock inv item.product_id (p0.stock_quantity - item.quantity)) rest with
        | error e => rw [hrec] at h; injection h
        | ok trip =>
          obtain ⟨inv3, ois3, sub3⟩ := trip
          rw [hrec] at h
          dsimp only at h
          injection h with h
          injection h with h1 h
          subst h1
          have hnn : (0:ℚ) ≤ p0.stock_quantity - item.quantity := by
            have := not_lt.mp hlt
            linarith
          exact ih (setStock_stockNonneg _ _ hnn inv hinv) hrec

theorem restoreItems_stockNonneg {ois : List OrderItem} :
    ∀ {inv : Inventory}, StockNonneg inv → (∀ oi ∈ ois, 0 ≤ oi.quantity) →
      StockNonneg (restoreItems inv ois) := by
  induction ois with
  | nil =>
    intro inv hinv _
    exact hinv
  | cons oi rest ih =>
    intro inv hinv hq
    rw [restoreItems]
    have hqrest : ∀ oi2 ∈ rest, 0 ≤ oi2.quantity :=
      fun oi2 h2 => hq oi2 (List.mem_cons_of_mem _ h2)
    cases hg : getProduct inv oi.product_id with
    | none => exact ih hinv hqrest
    | some p0 =>
      dsimp only
      have h0 : (0:ℚ) ≤ p0.stock_quantity := hinv p0 (getProduct_mem hg)
      have hq0 : (0:ℚ) ≤ oi.quantity := hq oi (List.mem_cons_self _ _)
      exact ih (setStock_stockNonneg _ _ (by linarith) inv hinv) hqrest

/-- Inversion of a successful `create_order`. -/
theorem create_order_ok {inv : Inventory} {d : OrderCreate} {inv2 : Inventory} {order : Order}
    (h : create_order inv d = Except.ok (inv2, order)) :
    ∃ ois sub, processItems inv d.items = Except.ok (inv2, ois, sub) ∧
      order = { status := OrderStatus.DRAFT
                payment_status := PaymentStatus.PENDING
                payment_provider := none
                payment_reference := none
                order_items := ois
                subtotal_amount := sub
                shipping_amount := d.shipping_amount
                discount_amount := d.discount_amount
                total_amount := sub + d.shipping_amount - d.discount_amount } := by
  rw [create_order] at h
  cases hp : processItems inv d.items with
  | error e => rw [hp] at h; injection h
  | ok trip =>
    obtain ⟨inv3, ois, sub⟩ := trip
    rw [hp] at h
    dsimp only at h
    injection h with h
    injection h with h1 h2
    subst h1
    exact ⟨ois, sub, rfl, h2.symm⟩

/-- The distinct failure results of `PaymentService.create_paypal_payment`
(`"Order not found"`, `"Order cannot be paid in ... status"`,
`"Order is already paid"`, `"PayPal payment creation failed: ..."`). -/
inductive PayError where
  | orderNotFound
  | invalidState
  | alreadyPaid
  | providerFailure
deriving DecidableEq

/-- Outcome of the external `paypal_provider.create_payment` call, an
input of the embedding (the provider is outside the repository). -/
inductive ProviderOutcome where
  | ok (payment_id : String)
  | failed
deriving DecidableEq

/-- Embedding of `PaymentService.create_paypal_payment` (payments/service.py lines
19-79).  The pair holds the returned result and the committed order row
(`none` when the order does not exist). -/
def create_paypal_payment (order? : Option Order) (provider : ProviderOutcome) :
    Except PayError Order × Option Order :=
  match order? with
  | none => (Except.error PayError.orderNotFound, none)
  | some order =>
    if order.status = OrderStatus.DRAFT ∨ order.status = OrderStatus.PENDING_PAYMENT then
      if order.payment_status = PaymentStatus.CAPTURED then
        (Except.error PayError.alreadyPaid, some order)
      else
        match provider with
        | ProviderOutcome.failed => (Except.error PayError.providerFailure, some order)
        | ProviderOutcome.ok payment_id =>
            let updated := { order with
              payment_provider := some ("PAYPAL")
              payment_reference := some payment_id
              payment_status := PaymentStatus.PENDING
              status := OrderStatus.PENDING_PAYMENT }
            (Except.ok updated, some updated)
    else (Except.error PayError.invalidState, some order)

/-- The distinct failure results of
`PaymentService.refund_paypal_payment`. -/
inductive RefundError where
  | orderNotFound
  | notPaypal
  | notCaptured
  | noReference
  | providerFailure
deriving DecidableEq

/-- Embedding of `PaymentService.refund_paypal_payment` (payments/service.py lines
138-192).  `providerOk` is the outcome of the external
`paypal_provider.refund_payment` call.  Python truthiness is kept:
`if not order.payment_reference` is true for `None` and `""`, and
`if amount and amount < order.total_amount` is false for `Decimal(0)`. -/
def refund_paypal_payment (order? : Option Order) (amount : Option ℚ) (providerOk : Bool) :
    Except RefundError Order :=
  match order? with
  | none => Except.error RefundError.orderNotFound
  | some order =>
    if order.payment_provider ≠ some ("PAYPAL") then
      Except.error RefundError.notPaypal
    else if order.payment_status ≠ PaymentStatus.CAPTURED then
      Except.error RefundError.notCaptured
    else if order.payment_reference = none ∨ order.payment_reference = some ("") then
      Except.error RefundError.noReference
    else if providerOk = false then
      Except.error RefundError.providerFailure
    else
      Except.ok { order with payment_status :=
        match amount with
        | none => PaymentStatus.REFUNDED
        | some a =>
            if a ≠ 0 ∧ a < order.total_amount then PaymentStatus.CAPTURED
            else PaymentStatus.REFUNDED }

/-- A `Shipment` row: the fields `update_shipment_status` touches.
Timestamps are abstract instants (`ℕ`), `none` when unset. -/
structure Shipment where
  status : ShipmentStatus
  shipped_at : Option ℕ
  delivered_at : Option ℕ
deriving DecidableEq

/-- Embedding of `ShipmentService.update_shipment_status` (shipments/service.py lines
153-183): always writes the status; on SHIPPED sets `shipped_at = now` if
unset, on DELIVERED sets `delivered_at = now` if unset. -/
def update_shipment_status (s : Shipment) (status : ShipmentStatus)
    (update_timestamps : Bool) (now : ℕ) : Shipment :=
  if update_timestamps = true ∧ status = ShipmentStatus.SHIPPED ∧ s.shipped_at = none then
    { s with status := status, shipped_at := some now }
  else if update_timestamps = true ∧ status = ShipmentStatus.DELIVERED ∧ s.delivered_at = none then
    { s with status := status, delivered_at := some now }
  else
    { s with status := status }

theorem addStock_subStock (t : ℚ) (p : Product) : addStock t (subStock t p) = p := by
  have hx : p.stock_quantity - t + t = p.stock_quantity := by ring
  simp only [addStock, subStock]
  rw [hx]

/-- C1: if any requested item's quantity exceeds its product's current
stock (or the product does not exist), `create_order` fails with an
order-creation error, and the committed stock of every product named in
the request is left unchanged — no partial decrement survives. -/
theorem c1_create_order_oversell_atomic (inv : Inventory) (d : OrderCreate)
    (hq : ∀ it ∈ d.items, 0 ≤ it.quantity)
    (hbad : ∃ it ∈ d.items, badItem inv it) :
    (∃ e, create_order inv d = Except.error e) ∧
    createOrderInventory inv d = inv ∧
    ∀ it ∈ d.items,
      getProduct (createOrderInventory inv d) it.product_id
        = getProduct inv it.product_id := by
  obtain ⟨e, he⟩ := processItems_err hq hbad
  have hco : create_order inv d = Except.error e := by
    rw [create_order, he]
  have hpost : createOrderInventory inv d = inv := by
    rw [createOrderInventory, hco]
  exact ⟨⟨e, hco⟩, hpost, fun it _ => by rw [hpost]⟩

/-- Oversell scenario of the spec: stock 1, requested quantity 2. -/
def w1inv : Inventory := [{ id := 1, price := 10, stock_quantity := 1 }]

def w1req : OrderCreate :=
  { items := [{ product_id := 1, quantity := 2, unit_price := 10, line_discount := 0 }]
    shipping_amount := 0
    discount_amount := 0 }

theorem c1_witness :
    (∃ e, create_order w1inv w1req = Except.error e) ∧
    createOrderInventory w1inv w1req = w1inv := by
  have h := c1_create_order_oversell_atomic w1inv w1req (by norm_num [w1req])
    ⟨{ product_id := 1, quantity := 2, unit_price := 10, line_discount := 0 },
      by simp [w1req],
      Or.inr ⟨{ id := 1, price := 10, stock_quantity := 1 },
        by norm_num [w1inv, getProduct], by norm_num⟩⟩
  exact ⟨h.1, h.2.1⟩

/-- C2: a successfully created order has
`subtotal_amount = Σ (quantity * unit_price - line_discount)`, each stored
line carries `line_subtotal = quantity * unit_price` and
`line_total = line_subtotal - line_discount`, and
`total_amount = subtotal_amount + shipping_amount - discount_amount`,
exactly over `ℚ`. -/
theorem c2_order_totals (inv : Inventory) (d : OrderCreate)
    (inv2 : Inventory) (order : Order)
    (h : create_order inv d = Except.ok (inv2, order)) :
    order.subtotal_amount
        = (d.items.map (fun it => it.quantity * it.unit_price - it.line_discount)).sum ∧
    order.order_items = d.items.map mkOrderItem ∧
    (∀ oi ∈ order.order_items,
      oi.line_subtotal = oi.quantity * oi.unit_price ∧
      oi.line_total = oi.line_subtotal - oi.line_discount) ∧
    order.total_amount = order.subtotal_amount + d.shipping_amount - d.discount_amount := by
  obtain ⟨ois, sub, hp, horder⟩ := create_order_ok h
  obtain ⟨ho, hs, -⟩ := processItems_ok hp
  subst horder
  refine ⟨hs, ho, ?_, rfl⟩
  intro oi hoi
  rw [ho] at hoi
  obtain ⟨it, -, rfl⟩ := List.mem_map.mp hoi
  exact ⟨rfl, rfl⟩

def w2inv : Inventory := [{ id := 1, price := 10, stock_quantity := 5 }]

def w2req : OrderCreate :=
  { items := [{ product_id := 1, quantity := 2, unit_price := 10, line_discount := 1 }]
    shipping_amount := 3
    discount_amount := 2 }

def w2invAfter : Inventory := [{ id := 1, price := 10, stock_quantity := 3 }]

def w2order : Order :=
  { status := OrderStatus.DRAFT
    payment_status := PaymentStatus.PENDING
    payment_provider := none
    payment_reference := none
    order_items := [{ product_id := 1, quantity := 2, unit_price := 10,
                      line_subtotal := 20, line_discount := 1, line_total := 19 }]
    subtotal_amount := 19
    shipping_amount := 3
    discount_amount := 2
    total_amount := 20 }

theorem c2_witness :
    create_order w2inv w2req = Except.ok (w2invAfter, w2order) ∧
    w2order.subtotal_amount = 19 ∧ w2order.total_amount = 20 := by
  have hco : create_order w2inv w2req = Except.ok (w2invAfter, w2order) := by
    norm_num [create_order, processItems, getProduct, setStock, w2inv, w2req,
      w2invAfter, w2order]
  have h := c2_order_totals w2inv w2req w2invAfter w2order hco
  refine ⟨hco, ?_, ?_⟩
  · rw [h.1]; norm_num [w2req]
  · rw [h.2.2.2, h.1]; norm_num [w2req]

/-- Inventory and request exhibiting that `create_order` stores the
caller-supplied unit price: the product's current price is 10, the
request claims 99. -/
def priceCheckInv : Inventory := [{ id := 1, price := 10, stock_quantity := 5 }]

def priceCheckReq : OrderCreate :=
  { items := [{ product_id := 1, quantity := 1, unit_price := 99, line_discount := 0 }]
    shipping_amount := 0
    discount_amount := 0 }

/-- C3 fails on the code: `create_order` fetches the product "to verify
price and stock" but never compares `unit_price` with `product.price`;
the stored `OrderItem.unit_price` is the request's 99 even though the
product's current price is 10. -/
theorem c3_unit_price_not_revalidated :
    create_order priceCheckInv priceCheckReq = Except.ok
      ([{ id := 1, price := 10, stock_quantity := 4 }],
       { status := OrderStatus.DRAFT
         payment_status := PaymentStatus.PENDING
         payment_provider := none
         payment_reference := none
         order_items := [{ product_id := 1, quantity := 1, unit_price := 99,
                           line_subtotal := 99, line_discount := 0, line_total := 99 }]
         subtotal_amount := 99
         shipping_amount := 0
         discount_amount := 0
         total_amount := 99 }) ∧
    (getProduct priceCheckInv 1).map Product.price = some 10 ∧ ((99:ℚ) ≠ 10) := by
  refine ⟨?_, ?_, by norm_num⟩
  · norm_num [create_order, processItems, getProduct, setStock, priceCheckInv, priceCheckReq]
  · norm_num [priceCheckInv, getProduct]

/-- C4: a successful creation followed by `cancel_order`, with no other
stock mutator in between, leaves every product at its original stock:
creation decrements by the requested quantities, cancellation restores
exactly those quantities and sets `status = CANCELLED`. -/
theorem c4_create_cancel_conserves_stock (inv : Inventory) (d : OrderCreate)
    (inv2 : Inventory) (order : Order)
    (h : create_order inv d = Except.ok (inv2, order)) :
    (∀ pid, getProduct inv2 pid
        = (getProduct inv pid).map (subStock (requestedQty d.items pid))) ∧
    ∃ inv3, cancel_order inv2 order
        = Except.ok (inv3, { order with status := OrderStatus.CANCELLED }) ∧
      ∀ pid, getProduct inv3 pid = getProduct inv pid := by
  obtain ⟨ois, sub, hp, horder⟩ := create_order_ok h
  obtain ⟨ho, -, hst⟩ := processItems_ok hp
  refine ⟨hst, restoreItems inv2 order.order_items, ?_, ?_⟩
  · rw [cancel_order, if_neg]
    rw [horder]
    simp
  · intro pid
    have hitems : order.order_items = d.items.map mkOrderItem := by
      rw [horder]
      exact ho
    rw [getProduct_restoreItems, hitems, restoredQty_map_mkOrderItem, hst pid]
    cases getProduct inv pid with
    | none => rfl
    | some p =>
      simp only [Option.map_some']
      rw [addStock_subStock]

theorem c4_witness :
    create_order w2inv w2req = Except.ok (w2invAfter, w2order) ∧
    getProduct (cancelOrderInventory w2invAfter w2order) 1 = getProduct w2inv 1 := by
  have hco : create_order w2inv w2req = Except.ok (w2invAfter, w2order) := by
    norm_num [create_order, processItems, getProduct, setStock, w2inv, w2req,
      w2invAfter, w2order]
  obtain ⟨-, inv3, hc, hrest⟩ :=
    c4_create_cancel_conserves_stock w2inv w2req w2invAfter w2order hco
  refine ⟨hco, ?_⟩
  rw [cancelOrderInventory, hc]
  exact hrest 1

/-- C5: `cancel_order` on a CANCELLED or FULFILLED order fails with the
invalid-state error and leaves the product table untouched; on any other
status it succeeds, adds every order item's quantity back to its
product's stock, and sets `status = CANCELLED`. -/
theorem c5_cancel_state_guard (inv : Inventory) (order : Order) :
    ((order.status = OrderStatus.CANCELLED ∨ order.status = OrderStatus.FULFILLED) →
      cancel_order inv order = Except.error OrderOpError.invalidState ∧
      cancelOrderInventory inv order = inv) ∧
    (¬(order.status = OrderStatus.CANCELLED ∨ order.status = OrderStatus.FULFILLED) →
      cancel_order inv order
          = Except.ok (restoreItems inv order.order_items,
              { order with status := OrderStatus.CANCELLED }) ∧
      ∀ pid, getProduct (restoreItems inv order.order_items) pid
          = (getProduct inv pid).map (addStock (restoredQty order.order_items pid))) := by
  constructor
  · intro hstat
    have hc : cancel_order inv order = Except.error OrderOpError.invalidState := by
      rw [cancel_order, if_pos hstat]
    exact ⟨hc, by rw [cancelOrderInventory, hc]⟩
  · intro hstat
    exact ⟨by rw [cancel_order, if_neg hstat],
      fun pid => getProduct_restoreItems _ _ _⟩

def w5inv : Inventory := [{ id := 2, price := 4, stock_quantity := 7 }]

def w5item : OrderItem :=
  { product_id := 2, quantity := 3, unit_price := 4,
    line_subtotal := 12, line_discount := 0, line_total := 12 }

def w5orderFulfilled : Order :=
  { status := OrderStatus.FULFILLED
    payment_status := PaymentStatus.CAPTURED
    payment_provider := none
    payment_reference := none
    order_items := [w5item]
    subtotal_amount := 12
    shipping_amount := 0
    discount_amount := 0
    total_amount := 12 }

def w5orderPaid : Order :=
  { w5orderFulfilled with status := OrderStatus.PAID }

theorem c5_witness :
    cancel_order w5inv w5orderFulfilled = Except.error OrderOpError.invalidState ∧
    cancel_order w5inv w5orderPaid
      = Except.ok (restoreItems w5inv w5orderPaid.order_items,
          { w5orderPaid with status := OrderStatus.CANCELLED }) := by
  have h1 := (c5_cancel_state_guard w5inv w5orderFulfilled).1 (Or.inr rfl)
  have h2 := (c5_cancel_state_guard w5inv w5orderPaid).2 (by decide)
  exact ⟨h1.1, h2.1⟩

/-- C6: `delete_order` succeeds exactly for DRAFT orders — failing with
the invalid-state error otherwise — and on success restores stock through
the same restoration loop as `cancel_order`, with the same per-product
effect. -/
theorem c6_delete_draft_only (inv : Inventory) (order : Order) :
    (order.status ≠ OrderStatus.DRAFT →
      delete_order inv order = Except.error OrderOpError.invalidState) ∧
    (order.status = OrderStatus.DRAFT →
      delete_order inv order = Except.ok (restoreItems inv order.order_items) ∧
      cancel_order inv order
        = Except.ok (restoreItems inv order.order_items,
            { order with status := OrderStatus.CANCELLED }) ∧
      ∀ pid, getProduct (restoreItems inv order.order_items) pid
          = (getProduct inv pid).map (addStock (restoredQty order.order_items pid))) := by
  constructor
  · intro h
    rw [delete_order, if_neg h]
  · intro h
    refine ⟨by rw [delete_order, if_pos h], ?_, fun pid => getProduct_restoreItems _ _ _⟩
    rw [cancel_order, if_neg]
    rw [h]
    simp

def w6orderDraft : Order :=
  { w5orderFulfilled with
    status := OrderStatus.DRAFT
    payment_status := PaymentStatus.PENDING }

theorem c6_witness :
    delete_order w5inv w6orderDraft = Except.ok (restoreItems w5inv w6orderDraft.order_items) ∧
    delete_order w5inv w5orderPaid = Except.error OrderOpError.invalidState := by
  have h1 := (c6_delete_draft_only w5inv w6orderDraft).2 rfl
  have h2 := (c6_delete_draft_only w5inv w5orderPaid).1 (by decide)
  exact ⟨h1.1, h2⟩

/-- C7: payment initiation fails on a missing order; fails with the
invalid-state error unless status ∈ {DRAFT, PENDING_PAYMENT}; fails with
the already-paid error when `payment_status = CAPTURED`; on provider
failure it returns an error leaving the order row unchanged; only on
provider success does it set `payment_provider`, `payment_reference`,
`payment_status = PENDING` and `status = PENDING_PAYMENT`. -/
theorem c7_initiate_payment_guards (order? : Option Order) (provider : ProviderOutcome) :
    (order? = none →
      create_paypal_payment order? provider = (Except.error PayError.orderNotFound, none)) ∧
    (∀ order, order? = some order →
      ¬(order.status = OrderStatus.DRAFT ∨ order.status = OrderStatus.PENDING_PAYMENT) →
      create_paypal_payment order? provider
        = (Except.error PayError.invalidState, some order)) ∧
    (∀ order, order? = some order →
      (order.status = OrderStatus.DRAFT ∨ order.status = OrderStatus.PENDING_PAYMENT) →
      order.payment_status = PaymentStatus.CAPTURED →
      create_paypal_payment order? provider
        = (Except.error PayError.alreadyPaid, some order)) ∧
    (∀ order, order? = some order →
      (order.status = OrderStatus.DRAFT ∨ order.status = OrderStatus.PENDING_PAYMENT) →
      order.payment_status ≠ PaymentStatus.CAPTURED →
      provider = ProviderOutcome.failed →
      create_paypal_payment order? provider
        = (Except.error PayError.providerFailure, some order)) ∧
    (∀ order payment_id, order? = some order →
      (order.status = OrderStatus.DRAFT ∨ order.status = OrderStatus.PENDING_PAYMENT) →
      order.payment_status ≠ PaymentStatus.CAPTURED →
      provider = ProviderOutcome.ok payment_id →
      create_paypal_payment order? provider
        = (Except.ok { order with
              payment_provider := some ("PAYPAL")
              payment_reference := some payment_id
              payment_status := PaymentStatus.PENDING
              status := OrderStatus.PENDING_PAYMENT },
           some { order with
              payment_provider := some ("PAYPAL")
              payment_reference := some payment_id
              payment_status := PaymentStatus.PENDING
              status := OrderStatus.PENDING_PAYMENT })) := by
  refine ⟨?_, ?_, ?_, ?_, ?_⟩
  · intro h
    subst h
    rfl
  · intro order h hstat
    subst h
    simp [create_paypal_payment, hstat]
  · intro order h hstat hcap
    subst h
    simp [create_paypal_payment, hstat, hcap]
  · intro order h hstat hcap hprov
    subst h
    subst hprov
    simp [create_paypal_payment, hstat, hcap]
  · intro order payment_id h hstat hcap hprov
    subst h
    subst hprov
    simp [create_paypal_payment, hstat, hcap]

def w7order : Order :=
  { status := OrderStatus.DRAFT
    payment_status := PaymentStatus.PENDING
    payment_provider := none
    payment_reference := none
    order_items := []
    subtotal_amount := 20
    shipping_amount := 0
    discount_amount := 0
    total_amount := 20 }

theorem c7_witness :
    create_paypal_payment (some w7order) ProviderOutcome.failed
        = (Except.error PayError.providerFailure, some w7order) ∧
    create_paypal_payment (some { w7order with status := OrderStatus.PAID })
        ProviderOutcome.failed
        = (Except.error PayError.invalidState,
           some { w7order with status := OrderStatus.PAID }) := by
  constructor
  · exact (c7_initiate_payment_guards (some w7order) ProviderOutcome.failed).2.2.2.1
      w7order rfl (Or.inl rfl) (by decide) rfl
  · exact (c7_initiate_payment_guards (some { w7order with status := OrderStatus.PAID })
      ProviderOutcome.failed).2.1 _ rfl (by decide)

/-- An order captured for 30.00 with a PayPal reference, as in the spec's
refund scenario. -/
def refundOrder : Order :=
  { status := OrderStatus.PAID
    payment_status := PaymentStatus.CAPTURED
    payment_provider := some ("PAYPAL")
    payment_reference := some ("REF-1")
    order_items := []
    subtotal_amount := 30
    shipping_amount := 0
    discount_amount := 0
    total_amount := 30 }

/-- C8 fails as stated: a refund amount of 0 is strictly less than
`total_amount = 30`, yet the code sets `payment_status = REFUNDED`
(`if amount and amount < order.total_amount` is false for `Decimal(0)`
because `Decimal(0)` is falsy). -/
theorem c8_counterexample :
    refund_paypal_payment (some refundOrder) (some 0) true
        = Except.ok { refundOrder with payment_status := PaymentStatus.REFUNDED } ∧
    (0:ℚ) < refundOrder.total_amount := by
  constructor
  · decide
  · decide

/-- C8 (amended): a refund succeeds only when `payment_provider` is
PAYPAL, `payment_status` is CAPTURED and a non-empty `payment_reference`
exists; on a successful provider refund, `payment_status` becomes
REFUNDED when the amount is omitted, zero, or equal to `total_amount`,
and stays CAPTURED when the amount is strictly between 0 and
`total_amount`. -/
theorem c8_refund_status (order : Order) (amount : Option ℚ) (providerOk : Bool) :
    (∀ order2, refund_paypal_payment (some order) amount providerOk = Except.ok order2 →
      order.payment_provider = some ("PAYPAL") ∧
      order.payment_status = PaymentStatus.CAPTURED ∧
      ∃ r, order.payment_reference = some r ∧ r ≠ "") ∧
    (order.payment_provider = some ("PAYPAL") →
      order.payment_status = PaymentStatus.CAPTURED →
      (∃ r, order.payment_reference = some r ∧ r ≠ "") →
      ((amount = none ∨ amount = some 0 ∨ amount = some order.total_amount) →
        refund_paypal_payment (some order) amount true
          = Except.ok { order with payment_status := PaymentStatus.REFUNDED }) ∧
      (∀ a, amount = some a → 0 < a → a < order.total_amount →
        refund_paypal_payment (some order) amount true
          = Except.ok { order with payment_status := PaymentStatus.CAPTURED })) := by
  constructor
  · intro order2 h
    by_cases hprov : order.payment_provider = some ("PAYPAL")
    · by_cases hcap : order.payment_status = PaymentStatus.CAPTURED
      · cases href : order.payment_reference with
        | none => simp [refund_paypal_payment, hprov, hcap, href] at h
        | some r =>
          by_cases hre : r = ""
          · simp [refund_paypal_payment, hprov, hcap, href, hre] at h
          · exact ⟨hprov, hcap, r, rfl, hre⟩
      · simp [refund_paypal_payment, hprov, hcap] at h
    · simp [refund_paypal_payment, hprov] at h
  · intro hprov hcap href
    obtain ⟨r, hr, hrne⟩ := href
    constructor
    · rintro (rfl | rfl | rfl)
      · simp [refund_paypal_payment, hprov, hcap, hr, hrne]
      · simp [refund_paypal_payment, hprov, hcap, hr, hrne]
      · simp [refund_paypal_payment, hprov, hcap, hr, hrne]
    · intro a ha h0 hlt
      subst ha
      have hne : a ≠ 0 := ne_of_gt h0
      simp [refund_paypal_payment, hprov, hcap, hr, hrne, hne, hlt]

theorem c8_witness :
    refund_paypal_payment (some refundOrder) (some 30) true
        = Except.ok { refundOrder with payment_status := PaymentStatus.REFUNDED } ∧
    refund_paypal_payment (some refundOrder) (some 10) true
        = Except.ok { refundOrder with payment_status := PaymentStatus.CAPTURED } := by
  have hfull := (c8_refund_status refundOrder (some 30) true).2 rfl rfl
    ⟨"REF-1", rfl, by decide⟩
  have hpart := (c8_refund_status refundOrder (some 10) true).2 rfl rfl
    ⟨"REF-1", rfl, by decide⟩
  constructor
  · exact hfull.1 (Or.inr (Or.inr rfl))
  · exact hpart.2 10 rfl (by norm_num) (by norm_num [refundOrder])

/-- C9: every stock mutator preserves `stock_quantity ≥ 0` on every
committed row: `update_stock` rejects a change that would go negative,
`create_order` decrements only after its stock check, and
cancellation/deletion only add validated (nonnegative) quantities back. -/
theorem c9_stock_nonneg (inv : Inventory) (hinv : StockNonneg inv) :
    (∀ pid qc inv2 p2, update_stock inv pid qc = UpdateStockResult.updated inv2 p2 →
      StockNonneg inv2) ∧
    (∀ pid qc p, getProduct inv pid = some p → p.stock_quantity + qc < 0 →
      update_stock inv pid qc = UpdateStockResult.insufficientStock) ∧
    (∀ d inv2 order, create_order inv d = Except.ok (inv2, order) → StockNonneg inv2) ∧
    (∀ order inv2 order2, (∀ oi ∈ order.order_items, 0 ≤ oi.quantity) →
      cancel_order inv order = Except.ok (inv2, order2) → StockNonneg inv2) ∧
    (∀ order inv2, (∀ oi ∈ order.order_items, 0 ≤ oi.quantity) →
      delete_order inv order = Except.ok inv2 → StockNonneg inv2) := by
  refine ⟨?_, ?_, ?_, ?_, ?_⟩
  · intro pid qc inv2 p2 h
    rw [update_stock] at h
    cases hg : getProduct inv pid with
    | none => rw [hg] at h; injection h
    | some p =>
      rw [hg] at h
      dsimp only at h
      by_cases hneg : p.stock_quantity + qc < 0
      · rw [if_pos hneg] at h; injection h
      · rw [if_neg hneg] at h
        injection h with h1 h2
        exact h1 ▸ setStock_stockNonneg pid _ (not_lt.mp hneg) inv hinv
  · intro pid qc p hg hneg
    rw [update_stock, hg]
    dsimp only
    rw [if_pos hneg]
  · intro d inv2 order h
    obtain ⟨ois, sub, hp, -⟩ := create_order_ok h
    exact processItems_stockNonneg hinv hp
  · intro order inv2 order2 hq h
    rw [cancel_order] at h
    by_cases hstat : order.status = OrderStatus.CANCELLED ∨ order.status = OrderStatus.FULFILLED
    · rw [if_pos hstat] at h; injection h
    · rw [if_neg hstat] at h
      injection h with h
      injection h with h1 h2
      exact h1 ▸ restoreItems_stockNonneg hinv hq
  · intro order inv2 hq h
    rw [delete_order] at h
    by_cases hstat : order.status = OrderStatus.DRAFT
    · rw [if_pos hstat] at h
      injection h with h
      exact h ▸ restoreItems_stockNonneg hinv hq
    · rw [if_neg hstat] at h; injection h

def w9inv : Inventory := [{ id := 3, price := 2, stock_quantity := 4 }]

theorem c9_witness :
    StockNonneg w9inv ∧
    StockNonneg [{ id := 3, price := 2, stock_quantity := 0 }] ∧
    update_stock w9inv 3 (-5) = UpdateStockResult.insufficientStock := by
  have h := c9_stock_nonneg w9inv (by decide)
  refine ⟨by decide, ?_, ?_⟩
  · exact h.1 3 (-4) [{ id := 3, price := 2, stock_quantity := 0 }]
      { id := 3, price := 2, stock_quantity := 0 }
      (by norm_num [update_stock, w9inv, getProduct, setStock])
  · exact h.2.1 3 (-5) { id := 3, price := 2, stock_quantity := 4 }
      (by norm_num [w9inv, getProduct]) (by norm_num)

/-- C10: `update_shipment_status` timestamps are set-once: a transition
to SHIPPED stamps `shipped_at = now` only when it is unset, a transition
to DELIVERED stamps `delivered_at` only when it is unset, and a repeated
push of the same status leaves the previously set timestamp unchanged
(while the status itself is always written). -/
theorem c10_shipment_timestamps (s : Shipment) (now now2 : ℕ) :
    (s.shipped_at = none →
      (update_shipment_status s ShipmentStatus.SHIPPED true now).shipped_at = some now) ∧
    (∀ t, s.shipped_at = some t →
      (update_shipment_status s ShipmentStatus.SHIPPED true now).shipped_at = some t) ∧
    (s.delivered_at = none →
      (update_shipment_status s ShipmentStatus.DELIVERED true now).delivered_at = some now) ∧
    (∀ t, s.delivered_at = some t →
      (update_shipment_status s ShipmentStatus.DELIVERED true now).delivered_at = some t) ∧
    ((update_shipment_status (update_shipment_status s ShipmentStatus.SHIPPED true now)
        ShipmentStatus.SHIPPED true now2).shipped_at
      = (update_shipment_status s ShipmentStatus.SHIPPED true now).shipped_at) ∧
    ((update_shipment_status (update_shipment_status s ShipmentStatus.DELIVERED true now)
        ShipmentStatus.DELIVERED true now2).delivered_at
      = (update_shipment_status s ShipmentStatus.DELIVERED true now).delivered_at) ∧
    (update_shipment_status s ShipmentStatus.SHIPPED true now).status
      = ShipmentStatus.SHIPPED ∧
    (update_shipment_status s ShipmentStatus.DELIVERED true now).status
      = ShipmentStatus.DELIVERED := by
  refine ⟨?_, ?_, ?_, ?_, ?_, ?_, ?_, ?_⟩
  · intro h
    simp [update_shipment_status, h]
  · intro t h
    simp [update_shipment_status, h]
  · intro h
    simp [update_shipment_status, h]
  · intro t h
    simp [update_shipment_status, h]
  · cases hs : s.shipped_at <;> simp [update_shipment_status, hs]
  · cases hd : s.delivered_at <;> simp [update_shipment_status, hd]
  · rw [update_shipment_status]
    split
    · rfl
    · split
      · rfl
      · rfl
  · rw [update_shipment_status]
    split
    · rfl
    · split
      · rfl
      · rfl

def w10shipment : Shipment :=
  { status := ShipmentStatus.PACKED, shipped_at := none, delivered_at := none }

theorem c10_witness :
    (update_shipment_status w10shipment ShipmentStatus.SHIPPED true 5).shipped_at = some 5 ∧
    (update_shipment_status (update_shipment_status w10shipment ShipmentStatus.SHIPPED true 5)
        ShipmentStatus.SHIPPED true 9).shipped_at = some 5 := by
  have h := c10_shipment_timestamps w10shipment 5 9
  refine ⟨h.1 rfl, ?_⟩
  rw [h.2.2.2.2.1]
  exact h.1 rfl
